import Mathlib

/-!
Verification of the DXGI screen-capture module (`src/dxgi/mod.rs`).

The development shallowly embeds the module's data model and operations:
* the cursor tracker of `Capturer::load_frame` (update-acceptance policy and
  pointer-shape caching),
* the cursor compositor `Capturer::draw_cursor` and its three per-encoding
  helpers,
* the frame-pull release protocol of `Capturer::frame` as an event trace,
* the construction cleanup of `Capturer::new` as an event trace,
* the display enumerator `Displays::next` / `Displays::read_and_invalidate`,
  with platform adapters and outputs supplied as explicit lists.

Machine integers are modelled as `Nat`/`Int`; the sole place the Rust code
truncates (`as u8` after the alpha blend) carries an explicit `% 256`.
Byte buffers are `List Nat`; FFI out-parameters are passed in as explicit
arguments describing what the platform call wrote on success.
-/

namespace Scrap

/-- `DXGI_OUTDUPL_POINTER_SHAPE_TYPE_MONOCHROME` (winapi value 0x1). -/
def SHAPE_TYPE_MONOCHROME : Nat := 1

/-- `DXGI_OUTDUPL_POINTER_SHAPE_TYPE_COLOR` (winapi value 0x2). -/
def SHAPE_TYPE_COLOR : Nat := 2

/-- `DXGI_OUTDUPL_POINTER_SHAPE_TYPE_MASKED_COLOR` (winapi value 0x4). -/
def SHAPE_TYPE_MASKED_COLOR : Nat := 4

/-- `DXGI_OUTDUPL_POINTER_SHAPE_INFO`: metadata of the cached cursor shape.
The C field `Type` is renamed `Ty` (`Type` is a Lean keyword); `HotSpot` is
split into its two coordinates. -/
structure ShapeInfo where
  Ty : Nat
  Width : Nat
  Height : Nat
  Pitch : Nat
  HotSpotX : Int
  HotSpotY : Int
deriving DecidableEq, Inhabited

/-- `CursorInfo` (src/dxgi/mod.rs lines 33-41). -/
structure CursorInfo where
  position : Int × Int
  shape : List Nat
  shape_info : ShapeInfo
  visible : Bool
  who_updated_position_last : Nat
  last_time_stamp : Int
deriving DecidableEq, Inhabited

/-- The fields of `Capturer` (src/dxgi/mod.rs lines 43-59) that the embedded
operations read or write.  Native handles (`device`, `context`,
`duplication`, `surface`, `data`) are modelled separately as event traces.
`desc_left`/`desc_top` are `desc.DesktopCoordinates.left/top`. -/
structure Capturer where
  capture_mouse : Bool
  cursor_info : CursorInfo
  fastlane : Bool
  len : Nat
  height : Nat
  width : Nat
  output_number : Nat
  offset_x : Int
  offset_y : Int
  desc_left : Int
  desc_top : Int
deriving DecidableEq, Inhabited

/-- The data `AcquireNextFrame` and the subsequent platform calls of one
successful `load_frame` deliver: the `DXGI_OUTDUPL_FRAME_INFO` fields read by
the code, the bytes and metadata `GetFramePointerShape` writes, and the
`Pitch` of the mapped rect (`MapDesktopSurface` or `IDXGISurface::Map`). -/
structure AcquiredInfo where
  LastMouseUpdateTime : Int
  PointerVisible : Nat
  PointerX : Int
  PointerY : Int
  PointerShapeBufferSize : Nat
  fetched_shape : List Nat
  fetched_shape_info : ShapeInfo
  MapPitch : Nat
deriving DecidableEq, Inhabited

/-- The cursor-position update of `load_frame` (src/dxgi/mod.rs lines
150-178), as a function from the old `cursor_info` to the new one.  Invoked
only under `capture_mouse` with a nonzero `LastMouseUpdateTime`; those gates
are applied by `load_frame` below. -/
def update_cursor_position (cap : Capturer) (info : AcquiredInfo) : CursorInfo :=
  let mouse_update_time := info.LastMouseUpdateTime
  let update_position :=
    if info.PointerVisible = 0 ∧
        cap.cursor_info.who_updated_position_last ≠ cap.output_number then
      false
    else if info.PointerVisible ≠ 0 ∧
        cap.cursor_info.visible = true ∧
        cap.cursor_info.who_updated_position_last ≠ cap.output_number ∧
        cap.cursor_info.last_time_stamp > mouse_update_time then
      false
    else
      true
  if update_position then
    { cap.cursor_info with
      position :=
        (info.PointerX + cap.desc_left - cap.offset_x,
         info.PointerY + cap.desc_top - cap.offset_y),
      who_updated_position_last := cap.output_number,
      last_time_stamp := mouse_update_time,
      visible := info.PointerVisible != 0 }
  else
    cap.cursor_info

/-- Overwrite the first `n` bytes of `dst` with the bytes of `src`, leaving
the rest of `dst` (and its length) unchanged: the effect of
`GetFramePointerShape` writing `n` bytes into the shape buffer. -/
def overlay (dst src : List Nat) (n : Nat) : List Nat :=
  (List.range dst.length).map (fun i => if i < n then src.getD i 0 else dst.getD i 0)

/-- The pointer-shape caching of `load_frame` (src/dxgi/mod.rs lines
180-195): if the frame reports a nonzero `PointerShapeBufferSize`, grow the
buffer when the size exceeds its length (`Vec::resize` with fill `0`), then
fetch the shape bytes and metadata.  `fetched`/`finfo` are what
`GetFramePointerShape` writes on success. -/
def shape_update (shape : List Nat) (si : ShapeInfo) (size : Nat)
    (fetched : List Nat) (finfo : ShapeInfo) : List Nat × ShapeInfo :=
  if size ≠ 0 then
    let shape :=
      if size > shape.length then shape ++ List.replicate (size - shape.length) 0
      else shape
    (overlay shape fetched size, finfo)
  else
    (shape, si)

/-- Fold `shape_update` over a sequence of frame reports
(`(PointerShapeBufferSize, fetched bytes, fetched info)` triples). -/
def run_shape_updates (s : List Nat × ShapeInfo)
    (evs : List (Nat × List Nat × ShapeInfo)) : List Nat × ShapeInfo :=
  evs.foldl (fun s ev => shape_update s.1 s.2 ev.1 ev.2.1 ev.2.2) s

/-- The state mutation of one successful `load_frame` call
(src/dxgi/mod.rs lines 133-223): the cursor-tracker section runs only when
`capture_mouse` is set and the frame's `LastMouseUpdateTime` is nonzero, and
the exposed length becomes `height * Pitch` on both data paths (lines 209
and 220). -/
def load_frame (cap : Capturer) (info : AcquiredInfo) : Capturer :=
  let cap :=
    if cap.capture_mouse = true ∧ info.LastMouseUpdateTime ≠ 0 then
      let ci := update_cursor_position cap info
      let ss := shape_update ci.shape ci.shape_info
        info.PointerShapeBufferSize info.fetched_shape info.fetched_shape_info
      { cap with cursor_info := { ci with shape := ss.1, shape_info := ss.2 } }
    else cap
  { cap with len := cap.height * info.MapPitch }

/-- `Capturer::draw_color_cursor` (src/dxgi/mod.rs lines 349-368).  `shape`
is `self.cursor_info.shape`; the loop `for i in 0..3` is a fold over
`List.range 3`.  The `as u8` cast after the `u16` blend is the explicit
`% 256`. -/
def draw_color_cursor (shape : List Nat) (frame : List Nat)
    (frame_index cursor_index : Nat) : List Nat :=
  if cursor_index + 3 < shape.length then
    let alpha := shape.getD (cursor_index + 3) 0
    if alpha > 0 then
      let frame := (List.range 3).foldl (fun fr i =>
        if frame_index + i < fr.length ∧ cursor_index + i < shape.length then
          let cursor_color := shape.getD (cursor_index + i) 0
          let frame_color := fr.getD (frame_index + i) 0
          fr.set (frame_index + i)
            ((alpha * cursor_color + (255 - alpha) * frame_color) / 255 % 256)
        else fr) frame
      if frame_index + 3 < frame.length then frame.set (frame_index + 3) 255
      else frame
    else frame
  else frame

/-- `Capturer::draw_monochrome_cursor` (src/dxgi/mod.rs lines 370-405).
`shape`/`shape_height` are `self.cursor_info.shape` and
`self.cursor_info.shape_info.Height`; `x` is the cursor-local column (a
loop variable of `draw_cursor`, always nonnegative).  Bit extraction
`(b >> k) & 1` is `b / 2 ^ k % 2`; the `u8` subtraction `255 - b` cannot
wrap because frame bytes are at most 255. -/
def draw_monochrome_cursor (shape : List Nat) (shape_height : Nat)
    (frame : List Nat) (frame_index cursor_index : Nat) (x : Int) : List Nat :=
  let byte_index := cursor_index / 8
  let bit_index : Nat := 7 - (x % 8).toNat
  if byte_index < shape.length ∧
      byte_index + shape_height / 2 < shape.length then
    let and_mask := shape.getD byte_index 0 / 2 ^ bit_index % 2
    let xor_mask := shape.getD (byte_index + shape_height / 2) 0 / 2 ^ bit_index % 2
    if and_mask = 0 ∧ xor_mask = 1 then
      (List.range 3).foldl (fun fr i =>
        if frame_index + i < fr.length then
          fr.set (frame_index + i) (255 - fr.getD (frame_index + i) 0)
        else fr) frame
    else if and_mask = 0 ∧ xor_mask = 0 then
      (List.range 3).foldl (fun fr i =>
        if frame_index + i < fr.length then fr.set (frame_index + i) 0
        else fr) frame
    else frame
  else frame

/-- `Capturer::draw_masked_color_cursor` (src/dxgi/mod.rs lines 407-425). -/
def draw_masked_color_cursor (shape : List Nat) (frame : List Nat)
    (frame_index cursor_index : Nat) : List Nat :=
  if cursor_index + 3 < shape.length then
    let alpha := shape.getD (cursor_index + 3) 0
    if alpha > 0 then
      let frame := (List.range 3).foldl (fun fr i =>
        if frame_index + i < fr.length ∧ cursor_index + i < shape.length then
          if shape.getD (cursor_index + i) 0 > 0 then
            fr.set (frame_index + i) (shape.getD (cursor_index + i) 0)
          else fr
        else fr) frame
      if frame_index + 3 < frame.length then frame.set (frame_index + 3) 255
      else frame
    else frame
  else frame

/-- `Capturer::draw_cursor` (src/dxgi/mod.rs lines 297-347).  The `u32`
shape dimensions are modelled as `Nat` (their `as i32` casts as the
corresponding `Int`s), and the two nested `for` loops as folds over
`List.range`. -/
def draw_cursor (cap : Capturer) (frame : List Nat) : List Nat :=
  let cursor_x := cap.cursor_info.position.1
  let cursor_y := cap.cursor_info.position.2
  let bytes_per_pixel := 4
  let cursor_width : Int := cap.cursor_info.shape_info.Width
  let cursor_height : Int := cap.cursor_info.shape_info.Height
  let cursor_pitch : Nat := cap.cursor_info.shape_info.Pitch
  let cursor_type := cap.cursor_info.shape_info.Ty
  let frame_width : Int := cap.width
  let frame_height : Int := cap.height
  let shape_len := cap.cursor_info.shape.length
  let hot_x := cap.cursor_info.shape_info.HotSpotX
  let hot_y := cap.cursor_info.shape_info.HotSpotY
  (List.range cursor_height.toNat).foldl (fun fr (yn : Nat) =>
    (List.range cursor_width.toNat).foldl (fun fr (xn : Nat) =>
      let x : Int := xn
      let y : Int := yn
      let frame_x := cursor_x + x - hot_x
      let frame_y := cursor_y + y - hot_y
      if frame_x ≥ 0 ∧ frame_y ≥ 0 ∧ frame_x < frame_width ∧ frame_y < frame_height then
        let frame_index := (frame_y.toNat * cap.width + frame_x.toNat) * bytes_per_pixel
        if frame_index + 3 < fr.length then
          let cursor_index : Nat := yn * cursor_pitch + xn * 4
          if cursor_index + 3 < shape_len then
            if cursor_type = SHAPE_TYPE_COLOR then
              draw_color_cursor cap.cursor_info.shape fr frame_index cursor_index
            else if cursor_type = SHAPE_TYPE_MONOCHROME then
              draw_monochrome_cursor cap.cursor_info.shape
                cap.cursor_info.shape_info.Height fr frame_index cursor_index x
            else if cursor_type = SHAPE_TYPE_MASKED_COLOR then
              draw_masked_color_cursor cap.cursor_info.shape fr frame_index cursor_index
            else fr
          else fr
        else fr
      else fr) fr) frame

/-- `Capturer::frame` (src/dxgi/mod.rs lines 273-295): composite the cursor
into the freshly exposed buffer only when tracking is on and the cached
state says visible. -/
def composite (cap : Capturer) (frame : List Nat) : List Nat :=
  if cap.capture_mouse = true ∧ cap.cursor_info.visible = true then
    draw_cursor cap frame
  else frame

/-! ### Frame-pull release protocol (`Capturer::frame`, lines 273-295)

The native calls the method issues before (re-)acquiring a frame are
modelled as an event trace, and their effect on the session's native
resources as a small state machine. -/

/-- Native calls appearing in `Capturer::frame` up to the acquisition. -/
inductive NativeEv where
  | unMapDesktopSurface
  | surfaceUnmap
  | surfaceRelease
  | releaseFrame
  | acquireNextFrame
deriving DecidableEq

/-- Native resources of a capture session that `Capturer::frame` touches
before acquiring: whether the desktop surface is mapped (fastlane), whether
a mapped staging surface is held (`self.surface`, readback), and whether the
previously acquired frame handle is still held by the duplication. -/
structure NativeState where
  desktop_mapped : Bool
  surface_mapped : Bool
  frame_held : Bool
deriving DecidableEq

/-- Effect of each native call on the session's resources. -/
def native_step (st : NativeState) (e : NativeEv) : NativeState :=
  match e with
  | .unMapDesktopSurface => { st with desktop_mapped := false }
  | .surfaceUnmap => st
  | .surfaceRelease => { st with surface_mapped := false }
  | .releaseFrame => { st with frame_held := false }
  | .acquireNextFrame => { st with frame_held := true }

/-- The calls `Capturer::frame` issues before calling `load_frame`
(src/dxgi/mod.rs lines 274-285): the fastlane path unmaps the desktop
surface; the readback path unmaps and releases `self.surface` when it is
non-null; then `ReleaseFrame`, on every path. -/
def frame_release_events (fastlane : Bool) (st : NativeState) : List NativeEv :=
  (if fastlane then [.unMapDesktopSurface]
   else if st.surface_mapped then [.surfaceUnmap, .surfaceRelease]
   else [])
  ++ [.releaseFrame]

/-- The trace of `Capturer::frame` up to and including the
`AcquireNextFrame` that `load_frame` issues first (line 138). -/
def frame_trace (fastlane : Bool) (st : NativeState) : List NativeEv :=
  frame_release_events fastlane st ++ [.acquireNextFrame]

/-! ### Construction cleanup (`Capturer::new`, lines 62-97) -/

/-- Native handle events of `Capturer::new`.  `D3D11CreateDevice` creates
the device and the context together; on its failure nothing was created. -/
inductive CtorEv where
  | createDevice
  | createContext
  | createDuplication
  | releaseDevice
  | releaseContext
deriving DecidableEq

/-- `Capturer::new` as (success flag, native-handle trace)
(src/dxgi/mod.rs lines 62-97): if `D3D11CreateDevice` fails, return the
error with nothing created; if `DuplicateOutput` fails, release the device
and the context, then return the error; otherwise all three handles stay
alive in the constructed session. -/
def capturer_new_trace (device_ok dup_ok : Bool) : Bool × List CtorEv :=
  if device_ok then
    if dup_ok then
      (true, [.createDevice, .createContext, .createDuplication])
    else
      (false, [.createDevice, .createContext, .releaseDevice, .releaseContext])
  else
    (false, [])

/-- A device handle was created but never released in the trace. -/
def device_leaked (evs : List CtorEv) : Prop :=
  CtorEv.createDevice ∈ evs ∧ CtorEv.releaseDevice ∉ evs

/-- A context handle was created but never released in the trace. -/
def context_leaked (evs : List CtorEv) : Prop :=
  CtorEv.createContext ∈ evs ∧ CtorEv.releaseContext ∉ evs

instance (evs : List CtorEv) : Decidable (device_leaked evs) :=
  inferInstanceAs (Decidable (_ ∧ _))

instance (evs : List CtorEv) : Decidable (context_leaked evs) :=
  inferInstanceAs (Decidable (_ ∧ _))

/-! ### Display enumeration (`Displays`, lines 442-567)

An adapter is its list of outputs; each output carries the result of its
duplication-capability query (`QueryInterface` to `IDXGIOutput1`
succeeding).  The platform factory is the list of adapters:
`EnumAdapters1 i` answers the adapter at index `i` or null, and
`EnumOutputs n` the output at index `n` or null.  A yielded `Display` is identified by
its `(adapter index, output index)` pair. -/

/-- An adapter: for each output index, whether the output can be queried
into a duplication-capable `IDXGIOutput1`. -/
abbrev AdapterM := List Bool

/-- The fields of `Displays` (src/dxgi/mod.rs lines 442-449).  `factory`
additionally records what `EnumAdapters1` answers; `adapter = none` is the
null pointer. -/
structure DState where
  factory : List AdapterM
  adapter : Option AdapterM
  nadapter : Nat
  ndisplay : Nat
deriving DecidableEq

/-- `Displays::read_and_invalidate` (src/dxgi/mod.rs lines 473-539).
`(some none, _)` = `Some(None)` (no adapter), `(some (some d), _)` =
`Some(Some(display))`, `(none, _)` = `None` (adapter exhausted or the
output failed the capability query; the adapter is freed and nulled). -/
def read_and_invalidate : DState → Option (Option (Nat × Nat)) × DState
  | ⟨F, none, k, d⟩ => (some none, ⟨F, none, k, d⟩)
  | ⟨F, some a, k, d⟩ =>
    match a[d]? with
    | none => (none, ⟨F, none, k, d⟩)
    | some cap =>
      if cap then (some (some (k, d)), ⟨F, some a, k, d + 1⟩)
      else (none, ⟨F, none, k, d + 1⟩)

/-- `Displays::next` (src/dxgi/mod.rs lines 544-566): try the current
adapter; when it reports exhausted, advance to the next adapter index,
fetch it from the factory, and try exactly once more. -/
def dnext (s : DState) : Option (Nat × Nat) × DState :=
  match read_and_invalidate s with
  | (some res, s1) => (res, s1)
  | (none, s1) =>
    match read_and_invalidate
        ⟨s1.factory, s1.factory[s1.nadapter + 1]?, s1.nadapter + 1, 0⟩ with
    | (some res, s3) => (res, s3)
    | (none, s3) => (none, s3)

/-- `Displays::new` (src/dxgi/mod.rs lines 452-468): fetch adapter 0. -/
def initDisplays (factory : List AdapterM) : DState :=
  ⟨factory, factory[0]?, 0, 0⟩

/-- Drive the iterator: collect the displays the session yields, with fuel
bounding the number of `next` calls. -/
def drun : Nat → DState → List (Nat × Nat)
  | 0, _ => []
  | Nat.succ fuel, s =>
    match dnext s with
    | (none, _) => []
    | (some d, s1) => d :: drun fuel s1

/-- Number of leading outputs of an adapter that pass the capability
query: the enumerator abandons the adapter at the first failure. -/
def contribution (a : AdapterM) : Nat := (a.takeWhile (fun b => b)).length

/-- The displays adapter `k` yields: output indices `start`, `start+1`, …
for `n` outputs. -/
def adapterYields (k start n : Nat) : List (Nat × Nat) :=
  (List.range' start n).map (fun i => (k, i))

/-- Displays yielded from adapter `k` on: a fresh adapter reached by
advancement that contributes nothing (it is missing, empty, or its first
output fails the capability query) ends the whole enumeration. -/
def enumTail : Nat → List AdapterM → List (Nat × Nat)
  | _, [] => []
  | k, a :: rest =>
    if contribution a = 0 then []
    else adapterYields k 0 (contribution a) ++ enumTail (k + 1) rest

/-- The full yield sequence of the enumerator, as a direct function of the
factory: adapter 0's passing prefix, then subsequent adapters until the
first barren one. -/
def enumSpec : List AdapterM → List (Nat × Nat)
  | [] => []
  | a :: rest => adapterYields 0 0 (contribution a) ++ enumTail 1 rest

/-- What remains to be yielded from a mid-enumeration state: the rest of
the current adapter's passing prefix from output `d` on, then the later
adapters. -/
def restYields (F : List AdapterM) (k d : Nat) (a : AdapterM) : List (Nat × Nat) :=
  adapterYields k d (((a.drop d).takeWhile (fun b => b)).length)
    ++ enumTail (k + 1) (F.drop (k + 1))

/-! ### Access-checked compositor

A second rendering of the compositor in the `Option` monad in which every
single buffer read and write is performed through a bounds-checked access
that fails (`none`) on an out-of-range index.  Control flow and guards are
the same as in the plain embedding; proving it never fails shows every
access the Rust code performs is within bounds. -/

/-- Bounds-checked read. -/
def getC (l : List Nat) (i : Nat) : Option Nat := l.get? i

/-- Bounds-checked write. -/
def setC (l : List Nat) (i : Nat) (v : Nat) : Option (List Nat) :=
  if i < l.length then some (l.set i v) else none

/-- `draw_color_cursor` with every buffer access checked. -/
def draw_color_cursorC (shape : List Nat) (frame : List Nat)
    (frame_index cursor_index : Nat) : Option (List Nat) :=
  if cursor_index + 3 < shape.length then do
    let alpha ← getC shape (cursor_index + 3)
    if alpha > 0 then do
      let frame ← (List.range 3).foldlM (fun fr i =>
        if frame_index + i < fr.length ∧ cursor_index + i < shape.length then do
          let cursor_color ← getC shape (cursor_index + i)
          let frame_color ← getC fr (frame_index + i)
          setC fr (frame_index + i)
            ((alpha * cursor_color + (255 - alpha) * frame_color) / 255 % 256)
        else pure fr) frame
      if frame_index + 3 < frame.length then setC frame (frame_index + 3) 255
      else pure frame
    else pure frame
  else pure frame

/-- `draw_monochrome_cursor` with every buffer access checked. -/
def draw_monochrome_cursorC (shape : List Nat) (shape_height : Nat)
    (frame : List Nat) (frame_index cursor_index : Nat) (x : Int) :
    Option (List Nat) :=
  let byte_index := cursor_index / 8
  let bit_index : Nat := 7 - (x % 8).toNat
  if byte_index < shape.length ∧
      byte_index + shape_height / 2 < shape.length then do
    let andByte ← getC shape byte_index
    let xorByte ← getC shape (byte_index + shape_height / 2)
    let and_mask := andByte / 2 ^ bit_index % 2
    let xor_mask := xorByte / 2 ^ bit_index % 2
    if and_mask = 0 ∧ xor_mask = 1 then
      (List.range 3).foldlM (fun fr i =>
        if frame_index + i < fr.length then do
          let b ← getC fr (frame_index + i)
          setC fr (frame_index + i) (255 - b)
        else pure fr) frame
    else if and_mask = 0 ∧ xor_mask = 0 then
      (List.range 3).foldlM (fun fr i =>
        if frame_index + i < fr.length then setC fr (frame_index + i) 0
        else pure fr) frame
    else pure frame
  else pure frame

/-- `draw_masked_color_cursor` with every buffer access checked. -/
def draw_masked_color_cursorC (shape : List Nat) (frame : List Nat)
    (frame_index cursor_index : Nat) : Option (List Nat) :=
  if cursor_index + 3 < shape.length then do
    let alpha ← getC shape (cursor_index + 3)
    if alpha > 0 then do
      let frame ← (List.range 3).foldlM (fun fr i =>
        if frame_index + i < fr.length ∧ cursor_index + i < shape.length then do
          let src ← getC shape (cursor_index + i)
          if src > 0 then setC fr (frame_index + i) src
          else pure fr
        else pure fr) frame
      if frame_index + 3 < frame.length then setC frame (frame_index + 3) 255
      else pure frame
    else pure frame
  else pure frame

/-- `draw_cursor` with every buffer access checked. -/
def draw_cursorC (cap : Capturer) (frame : List Nat) : Option (List Nat) :=
  let cursor_x := cap.cursor_info.position.1
  let cursor_y := cap.cursor_info.position.2
  let bytes_per_pixel := 4
  let cursor_width : Int := cap.cursor_info.shape_info.Width
  let cursor_height : Int := cap.cursor_info.shape_info.Height
  let cursor_pitch : Nat := cap.cursor_info.shape_info.Pitch
  let cursor_type := cap.cursor_info.shape_info.Ty
  let frame_width : Int := cap.width
  let frame_height : Int := cap.height
  let shape_len := cap.cursor_info.shape.length
  let hot_x := cap.cursor_info.shape_info.HotSpotX
  let hot_y := cap.cursor_info.shape_info.HotSpotY
  (List.range cursor_height.toNat).foldlM (fun fr (yn : Nat) =>
    (List.range cursor_width.toNat).foldlM (fun fr (xn : Nat) =>
      let x : Int := xn
      let y : Int := yn
      let frame_x := cursor_x + x - hot_x
      let frame_y := cursor_y + y - hot_y
      if frame_x ≥ 0 ∧ frame_y ≥ 0 ∧ frame_x < frame_width ∧ frame_y < frame_height then
        let frame_index := (frame_y.toNat * cap.width + frame_x.toNat) * bytes_per_pixel
        if frame_index + 3 < fr.length then
          let cursor_index : Nat := yn * cursor_pitch + xn * 4
          if cursor_index + 3 < shape_len then
            if cursor_type = SHAPE_TYPE_COLOR then
              draw_color_cursorC cap.cursor_info.shape fr frame_index cursor_index
            else if cursor_type = SHAPE_TYPE_MONOCHROME then
              draw_monochrome_cursorC cap.cursor_info.shape
                cap.cursor_info.shape_info.Height fr frame_index cursor_index x
            else if cursor_type = SHAPE_TYPE_MASKED_COLOR then
              draw_masked_color_cursorC cap.cursor_info.shape fr frame_index cursor_index
            else pure fr
          else pure fr
        else pure fr
      else pure fr) fr) frame

/-! ### Definitions following the spec's words

Used only to exhibit where the code diverges from the spec (claims C2 and
C3); each is written from the spec sentence it cites, not from the code. -/

/-- Modelled from the spec (§6): the destination byte offset of a
composited cursor pixel, "addressing must use pitch, not width, for row
stepping": `offset = frame_y × pitch + frame_x × 4`. -/
def spec_frame_offset (pitch frame_y frame_x : Nat) : Nat :=
  frame_y * pitch + frame_x * 4

/-- Modelled from the spec (§4.5, Monochrome): the AND-mask bit of
cursor-local pixel `(x, y)`, read at `byte = (y·pitch) + x/8` into the
first (AND) half with bit index `7 − (x mod 8)`, most significant bit
first. -/
def spec_mono_and_bit (shape : List Nat) (pitch x y : Nat) : Nat :=
  shape.getD (y * pitch + x / 8) 0 / 2 ^ (7 - x % 8) % 2

/-- The rejection condition of the cursor-update acceptance policy, as the
spec states it (§4.4): either the report says not-visible and the cached
last-updating output is not this output, or the report says visible, the
cached state is visible, the cached last-updating output is not this
output, and the cached timestamp is strictly newer than the report's. -/
def update_rejected (cap : Capturer) (info : AcquiredInfo) : Prop :=
  (info.PointerVisible = 0 ∧
    cap.cursor_info.who_updated_position_last ≠ cap.output_number) ∨
  (info.PointerVisible ≠ 0 ∧ cap.cursor_info.visible = true ∧
    cap.cursor_info.who_updated_position_last ≠ cap.output_number ∧
    cap.cursor_info.last_time_stamp > info.LastMouseUpdateTime)

instance (cap : Capturer) (info : AcquiredInfo) : Decidable (update_rejected cap info) :=
  inferInstanceAs (Decidable (_ ∨ _))

/-! ### Concrete inputs used by witnesses and counterexamples -/

/-- Cached cursor state of the spec's stale-update scenario (§8): visible,
owned by output 5 (not this session's output 0), timestamp 100. -/
def capC1 : Capturer :=
  { capture_mouse := true,
    cursor_info :=
      { position := (3, 4), shape := [1, 2],
        shape_info := ⟨SHAPE_TYPE_COLOR, 1, 1, 4, 0, 0⟩,
        visible := true, who_updated_position_last := 5, last_time_stamp := 100 },
    fastlane := true, len := 0, height := 10, width := 10,
    output_number := 0, offset_x := 0, offset_y := 0,
    desc_left := 7, desc_top := 9 }

/-- Incoming report of the stale-update scenario: visible, timestamp 50. -/
def infoC1 : AcquiredInfo :=
  { LastMouseUpdateTime := 50, PointerVisible := 1, PointerX := 11, PointerY := 13,
    PointerShapeBufferSize := 0, fetched_shape := [],
    fetched_shape_info := ⟨0, 0, 0, 0, 0, 0⟩, MapPitch := 16 }

/-- A 1×1 color cursor (metadata). -/
def siC2 : ShapeInfo := ⟨SHAPE_TYPE_COLOR, 1, 1, 4, 0, 0⟩

/-- Cursor state: visible 1×1 color cursor at desktop position (0, 1). -/
def ciC2 : CursorInfo := ⟨(0, 1), [10, 20, 30, 255], siC2, true, 0, 0⟩

/-- A session with a 2×2-pixel output whose mapped surface has row pitch 16
(so pitch `≠ width × 4 = 8`) and exposed length `height × pitch = 32`. -/
def capC2 : Capturer := ⟨true, ciC2, true, 32, 2, 2, 0, 0, 0, 0, 0⟩

/-- An all-zero exposed buffer of length `height × pitch = 32`. -/
def frameC2 : List Nat := List.replicate 32 0

/-- An 8-wide monochrome cursor: reported height 4 (two stacked 2-row
1-bit-per-pixel halves), pitch 1. -/
def siC3 : ShapeInfo := ⟨SHAPE_TYPE_MONOCHROME, 8, 4, 1, 0, 0⟩

/-- Monochrome cursor state at (0, 0).  Shape bytes: AND row 0 = 32
(bit 5, i.e. x = 2, set), then bytes such that the byte the code actually
reads for x = 2 (byte 1) has AND bit 5 clear and the byte it reads as the
XOR half (byte 1 + Height/2 = 3) has bit 5 set. -/
def ciC3 : CursorInfo :=
  ⟨(0, 0), [32, 0, 0, 32, 0, 0, 0, 0, 0, 0, 0, 0], siC3, true, 0, 0⟩

/-- A session with an 8×2 output (pitch = width × 4 here, to isolate the
monochrome addressing). -/
def capC3 : Capturer := ⟨true, ciC3, true, 64, 2, 8, 0, 0, 0, 0, 0⟩

/-- A mid-gray frame (every byte 128), length 64. -/
def frameC3 : List Nat := List.replicate 64 128

/-- Color-cursor pixel of the spec's blend test: B,G,R = 255, alpha 128. -/
def shapeC4 : List Nat := [255, 255, 255, 128]

/-- Black destination pixels. -/
def frameC4 : List Nat := List.replicate 8 0

/-- Masked-color cursor pixel: channel 0 zero (see-through), channels 1
and 2 nonzero, alpha nonzero. -/
def shapeC5 : List Nat := [0, 7, 9, 200]

/-- Destination bytes, all 5. -/
def frameC5 : List Nat := List.replicate 8 5

/-- A cursor whose shape reports the unrecognized encoding type 3. -/
def capC5u : Capturer :=
  ⟨true, ⟨(0, 0), [1, 2, 3, 4, 5, 6, 7, 8], ⟨3, 1, 1, 4, 0, 0⟩, true, 0, 0⟩,
    true, 16, 2, 2, 0, 0, 0, 0, 0⟩

/-! ## Helper lemmas -/

theorem getD_set_at {l : List Nat} {i v : Nat} (h : i < l.length) :
    (l.set i v).getD i 0 = v := by
  simp [List.getElem?_set_self h]

theorem getD_set_other {l : List Nat} {i j v : Nat} (h : i ≠ j) :
    (l.set i v).getD j 0 = l.getD j 0 := by
  simp [List.getElem?_set_ne h]

theorem getD_lt_of_forall_lt (l : List Nat) (i : Nat) (h : ∀ b ∈ l, b < 256) :
    l.getD i 0 < 256 := by
  by_cases hi : i < l.length
  · have hmem : l[i] ∈ l := List.getElem_mem hi
    simp [List.getD_eq_getElem?_getD, List.getElem?_eq_getElem hi]
    exact h _ hmem
  · simp [List.getD_eq_getElem?_getD, List.getElem?_eq_none (Nat.le_of_not_lt hi)]

theorem blend_le_255 {a s d : Nat} (ha : a < 256) (hs : s < 256) (hd : d < 256) :
    (a * s + (255 - a) * d) / 255 ≤ 255 := by
  have h1 : a * s ≤ a * 255 := Nat.mul_le_mul_left a (by omega)
  have h2 : (255 - a) * d ≤ (255 - a) * 255 := Nat.mul_le_mul_left _ (by omega)
  have h3 : a * 255 + (255 - a) * 255 = 255 * 255 := by
    have : a + (255 - a) = 255 := by omega
    nlinarith [this]
  have h4 : a * s + (255 - a) * d ≤ 255 * 255 := by omega
  calc (a * s + (255 - a) * d) / 255 ≤ 255 * 255 / 255 := Nat.div_le_div_right h4
    _ = 255 := by norm_num

theorem foldlM_eq_some_foldl {α β : Type} (f : β → α → Option β) (g : β → α → β)
    (hfg : ∀ b a, f b a = some (g b a)) :
    ∀ (l : List α) (b : β), l.foldlM f b = some (l.foldl g b) := by
  intro l
  induction l with
  | nil => intro b; rfl
  | cons a t ih =>
    intro b
    rw [List.foldlM_cons, hfg, List.foldl_cons]
    exact ih (g b a)

theorem foldl_fixed {α β : Type} (f : β → α → β) (h : ∀ b a, f b a = b) :
    ∀ (l : List α) (b : β), l.foldl f b = b := by
  intro l
  induction l with
  | nil => intro b; rfl
  | cons a t ih => intro b; rw [List.foldl_cons, h]; exact ih b

theorem getC_some (l : List Nat) (i : Nat) (h : i < l.length) :
    getC l i = some (l.getD i 0) := by
  simp [getC, List.get?_eq_getElem?, List.getElem?_eq_getElem h]

theorem setC_some (l : List Nat) (i v : Nat) (h : i < l.length) :
    setC l i v = some (l.set i v) := by
  simp [setC, h]

theorem length_ite_set (c : Prop) [Decidable c] (l : List Nat) (i v : Nat) :
    (if c then l.set i v else l).length = l.length := by
  split <;> simp

theorem getD_ite_set_other (c : Prop) [Decidable c] {l : List Nat} {i j v : Nat}
    (h : i ≠ j) :
    (if c then l.set i v else l).getD j 0 = l.getD j 0 := by
  split
  · exact getD_set_other h
  · rfl

theorem getD_ite_set_at (c : Prop) [Decidable c] {l : List Nat} {i v : Nat}
    (h : i < l.length) :
    (if c then l.set i v else l).getD i 0 = if c then v else l.getD i 0 := by
  split
  · exact getD_set_at h
  · rfl

theorem overlay_length (dst src : List Nat) (n : Nat) :
    (overlay dst src n).length = dst.length := by
  simp [overlay]

theorem overlay_getD (dst src : List Nat) (n i : Nat) (h : i < dst.length) :
    (overlay dst src n).getD i 0 =
      if i < n then src.getD i 0 else dst.getD i 0 := by
  simp [overlay, List.getD_eq_getElem?_getD, List.getElem?_map,
    List.getElem?_range h]

theorem shape_update_length (shape : List Nat) (si : ShapeInfo) (size : Nat)
    (fetched : List Nat) (finfo : ShapeInfo) :
    (shape_update shape si size fetched finfo).1.length =
      if size = 0 then shape.length else max shape.length size := by
  by_cases h : size = 0
  · simp [shape_update, h]
  · simp only [shape_update, h, if_neg, ite_false, if_true, ne_eq,
      not_false_eq_true, if_pos, overlay_length]
    split
    · simp only [List.length_append, List.length_replicate]
      omega
    · omega

theorem shape_update_length_le (shape : List Nat) (si : ShapeInfo) (size : Nat)
    (fetched : List Nat) (finfo : ShapeInfo) :
    shape.length ≤ (shape_update shape si size fetched finfo).1.length := by
  rw [shape_update_length]
  split <;> omega

theorem run_shape_updates_mono (evs : List (Nat × List Nat × ShapeInfo)) :
    ∀ s : List Nat × ShapeInfo,
      s.1.length ≤ (run_shape_updates s evs).1.length := by
  induction evs with
  | nil => intro s; simp [run_shape_updates]
  | cons e t ih =>
    intro s
    have hstep : run_shape_updates s (e :: t) =
        run_shape_updates (shape_update s.1 s.2 e.1 e.2.1 e.2.2) t := rfl
    rw [hstep]
    exact Nat.le_trans (shape_update_length_le s.1 s.2 e.1 e.2.1 e.2.2)
      (ih (shape_update s.1 s.2 e.1 e.2.1 e.2.2))

theorem draw_color_cursorC_eq (shape frame : List Nat) (fi ci : Nat) :
    draw_color_cursorC shape frame fi ci =
      some (draw_color_cursor shape frame fi ci) := by
  unfold draw_color_cursorC draw_color_cursor
  split
  case isTrue h =>
    rw [getC_some shape (ci + 3) (by omega)]
    simp only [Option.bind_eq_bind, Option.some_bind]
    split
    case isTrue ha =>
      have hstep : ∀ (fr : List Nat) (i : Nat),
          (if fi + i < fr.length ∧ ci + i < shape.length then do
              let cursor_color ← getC shape (ci + i)
              let frame_color ← getC fr (fi + i)
              setC fr (fi + i)
                ((shape.getD (ci + 3) 0 * cursor_color +
                  (255 - shape.getD (ci + 3) 0) * frame_color) / 255 % 256)
            else pure fr)
          = some (if fi + i < fr.length ∧ ci + i < shape.length then
              fr.set (fi + i)
                ((shape.getD (ci + 3) 0 * shape.getD (ci + i) 0 +
                  (255 - shape.getD (ci + 3) 0) * fr.getD (fi + i) 0) / 255 % 256)
            else fr) := by
        intro fr i
        split
        case isTrue hg =>
          rw [getC_some shape (ci + i) hg.2]
          simp only [Option.bind_eq_bind, Option.some_bind]
          rw [getC_some fr (fi + i) hg.1]
          simp only [Option.bind_eq_bind, Option.some_bind]
          exact setC_some fr (fi + i) _ hg.1
        case isFalse hg => rfl
      simp only [Option.bind_eq_bind] at hstep
      rw [foldlM_eq_some_foldl _ _ hstep]
      simp only [Option.bind_eq_bind, Option.some_bind]
      split
      case isTrue hlast => exact setC_some _ (fi + 3) 255 hlast
      case isFalse hlast => rfl
    case isFalse ha => rfl
  case isFalse h => rfl

theorem draw_monochrome_cursorC_eq (shape : List Nat) (shape_height : Nat)
    (frame : List Nat) (fi ci : Nat) (x : Int) :
    draw_monochrome_cursorC shape shape_height frame fi ci x =
      some (draw_monochrome_cursor shape shape_height frame fi ci x) := by
  unfold draw_monochrome_cursorC draw_monochrome_cursor
  dsimp only
  split
  case isTrue h =>
    rw [getC_some shape _ h.1]
    simp only [Option.bind_eq_bind, Option.some_bind]
    rw [getC_some shape _ h.2]
    simp only [Option.bind_eq_bind, Option.some_bind]
    split
    case isTrue hm =>
      have hstep : ∀ (fr : List Nat) (i : Nat),
          (if fi + i < fr.length then do
              let b ← getC fr (fi + i)
              setC fr (fi + i) (255 - b)
            else pure fr)
          = some (if fi + i < fr.length then
              fr.set (fi + i) (255 - fr.getD (fi + i) 0)
            else fr) := by
        intro fr i
        split
        case isTrue hg =>
          rw [getC_some fr (fi + i) hg]
          simp only [Option.bind_eq_bind, Option.some_bind]
          exact setC_some fr (fi + i) _ hg
        case isFalse hg => rfl
      simp only [Option.bind_eq_bind] at hstep
      exact foldlM_eq_some_foldl _ _ hstep _ _
    case isFalse hm =>
      split
      case isTrue hz =>
        have hstep : ∀ (fr : List Nat) (i : Nat),
            (if fi + i < fr.length then setC fr (fi + i) 0 else pure fr)
            = some (if fi + i < fr.length then fr.set (fi + i) 0 else fr) := by
          intro fr i
          split
          case isTrue hg => exact setC_some fr (fi + i) 0 hg
          case isFalse hg => rfl
        exact foldlM_eq_some_foldl _ _ hstep _ _
      case isFalse hz => rfl
  case isFalse h => rfl

theorem draw_masked_color_cursorC_eq (shape frame : List Nat) (fi ci : Nat) :
    draw_masked_color_cursorC shape frame fi ci =
      some (draw_masked_color_cursor shape frame fi ci) := by
  unfold draw_masked_color_cursorC draw_masked_color_cursor
  split
  case isTrue h =>
    rw [getC_some shape (ci + 3) (by omega)]
    simp only [Option.bind_eq_bind, Option.some_bind]
    split
    case isTrue ha =>
      have hstep : ∀ (fr : List Nat) (i : Nat),
          (if fi + i < fr.length ∧ ci + i < shape.length then do
              let src ← getC shape (ci + i)
              if src > 0 then setC fr (fi + i) src else pure fr
            else pure fr)
          = some (if fi + i < fr.length ∧ ci + i < shape.length then
              if shape.getD (ci + i) 0 > 0 then
                fr.set (fi + i) (shape.getD (ci + i) 0)
              else fr
            else fr) := by
        intro fr i
        split
        case isTrue hg =>
          rw [getC_some shape (ci + i) hg.2]
          simp only [Option.bind_eq_bind, Option.some_bind]
          split
          case isTrue hsrc => exact setC_some fr (fi + i) _ hg.1
          case isFalse hsrc => rfl
        case isFalse hg => rfl
      simp only [Option.bind_eq_bind] at hstep
      rw [foldlM_eq_some_foldl _ _ hstep]
      simp only [Option.bind_eq_bind, Option.some_bind]
      split
      case isTrue hlast => exact setC_some _ (fi + 3) 255 hlast
      case isFalse hlast => rfl
    case isFalse ha => rfl
  case isFalse h => rfl

theorem takeWhile_drop_succ {a : AdapterM} {d : Nat} (h : a[d]? = some true) :
    ((a.drop d).takeWhile (fun b => b)).length =
      ((a.drop (d + 1)).takeWhile (fun b => b)).length + 1 := by
  obtain ⟨hlt, hval⟩ := List.getElem?_eq_some_iff.mp h
  rw [List.drop_eq_getElem_cons hlt, hval, List.takeWhile_cons_of_pos (by rfl)]
  simp

theorem takeWhile_drop_false {a : AdapterM} {d : Nat} (h : a[d]? = some false) :
    ((a.drop d).takeWhile (fun b => b)).length = 0 := by
  obtain ⟨hlt, hval⟩ := List.getElem?_eq_some_iff.mp h
  rw [List.drop_eq_getElem_cons hlt, hval, List.takeWhile_cons_of_neg (by decide)]
  rfl

theorem takeWhile_drop_none {a : AdapterM} {d : Nat} (h : a[d]? = none) :
    ((a.drop d).takeWhile (fun b => b)).length = 0 := by
  rw [List.drop_eq_nil_of_le (List.getElem?_eq_none_iff.mp h)]
  rfl

theorem adapterYields_succ (k d n : Nat) :
    adapterYields k d (n + 1) = (k, d) :: adapterYields k (d + 1) n := by
  simp [adapterYields, List.range'_succ]

theorem restYields_cons {F : List AdapterM} {k d : Nat} {a : AdapterM}
    (h : a[d]? = some true) :
    restYields F k d a = (k, d) :: restYields F k (d + 1) a := by
  rw [restYields, restYields, takeWhile_drop_succ h, adapterYields_succ]
  rfl

theorem restYields_barren {F : List AdapterM} {k d : Nat} {a : AdapterM}
    (h : ((a.drop d).takeWhile (fun b => b)).length = 0) :
    restYields F k d a = enumTail (k + 1) (F.drop (k + 1)) := by
  rw [restYields, h]
  rfl

theorem contribution_drop_zero (a : AdapterM) :
    contribution a = ((a.drop 0).takeWhile (fun b => b)).length := rfl

theorem drun_exhaust_step (fuel : Nat)
    (ih : ∀ (F : List AdapterM) (k d : Nat) (a : AdapterM),
      F[k]? = some a → (restYields F k d a).length < fuel →
      drun fuel ⟨F, some a, k, d⟩ = restYields F k d a)
    (F : List AdapterM) (k d dx : Nat) (a : AdapterM)
    (hzero : ((a.drop d).takeWhile (fun b => b)).length = 0)
    (hread : read_and_invalidate ⟨F, some a, k, d⟩ = (none, ⟨F, none, k, dx⟩))
    (hlt : (restYields F k d a).length < fuel + 1) :
    drun (fuel + 1) ⟨F, some a, k, d⟩ = restYields F k d a := by
  rw [restYields_barren hzero]
  match hk1 : F[k + 1]? with
  | none =>
    have hread2 : read_and_invalidate ⟨F, none, k + 1, 0⟩ =
        (some none, ⟨F, none, k + 1, 0⟩) := by
      simp [read_and_invalidate]
    have hnext : dnext ⟨F, some a, k, d⟩ = (none, ⟨F, none, k + 1, 0⟩) := by
      simp [dnext, hread, hk1, hread2]
    rw [List.drop_eq_nil_of_le (List.getElem?_eq_none_iff.mp hk1)]
    simp [drun, hnext, enumTail]
  | some a1 =>
    have hdropF : F.drop (k + 1) = a1 :: F.drop (k + 2) := by
      obtain ⟨hlt1, hval⟩ := List.getElem?_eq_some_iff.mp hk1
      rw [List.drop_eq_getElem_cons hlt1, hval]
    rw [hdropF]
    match ha1 : a1[0]? with
    | some true =>
      have hread2 : read_and_invalidate ⟨F, some a1, k + 1, 0⟩ =
          (some (some (k + 1, 0)), ⟨F, some a1, k + 1, 1⟩) := by
        simp [read_and_invalidate, ha1]
      have hnext : dnext ⟨F, some a, k, d⟩ =
          (some (k + 1, 0), ⟨F, some a1, k + 1, 1⟩) := by
        simp [dnext, hread, hk1, hread2]
      have hc : contribution a1 = ((a1.drop 1).takeWhile (fun b => b)).length + 1 := by
        rw [contribution_drop_zero, takeWhile_drop_succ ha1]
      have heq : enumTail (k + 1) (a1 :: F.drop (k + 2)) =
          (k + 1, 0) :: restYields F (k + 1) 1 a1 := by
        rw [enumTail, if_neg (by omega), hc, adapterYields_succ]
        rfl
      rw [heq]
      have hlen : (restYields F (k + 1) 1 a1).length < fuel := by
        have h1 : (restYields F k d a).length =
            (restYields F (k + 1) 1 a1).length + 1 := by
          rw [restYields_barren hzero, hdropF, heq]
          simp
        omega
      simp only [drun]
      rw [hnext]
      exact congrArg _ (ih F (k + 1) 1 a1 hk1 hlen)
    | some false =>
      have hread2 : read_and_invalidate ⟨F, some a1, k + 1, 0⟩ =
          (none, ⟨F, none, k + 1, 1⟩) := by
        simp [read_and_invalidate, ha1]
      have hnext : dnext ⟨F, some a, k, d⟩ = (none, ⟨F, none, k + 1, 1⟩) := by
        simp [dnext, hread, hk1, hread2]
      have hc : contribution a1 = 0 := by
        rw [contribution_drop_zero]
        exact takeWhile_drop_false ha1
      simp [drun, hnext, enumTail, hc]
    | none =>
      have hread2 : read_and_invalidate ⟨F, some a1, k + 1, 0⟩ =
          (none, ⟨F, none, k + 1, 0⟩) := by
        simp [read_and_invalidate, ha1]
      have hnext : dnext ⟨F, some a, k, d⟩ = (none, ⟨F, none, k + 1, 0⟩) := by
        simp [dnext, hread, hk1, hread2]
      have hc : contribution a1 = 0 := by
        rw [contribution_drop_zero]
        exact takeWhile_drop_none ha1
      simp [drun, hnext, enumTail, hc]

theorem drun_restYields (fuel : Nat) :
    ∀ (F : List AdapterM) (k d : Nat) (a : AdapterM),
      F[k]? = some a → (restYields F k d a).length < fuel →
      drun fuel ⟨F, some a, k, d⟩ = restYields F k d a := by
  induction fuel with
  | zero => intro F k d a _ hlt; omega
  | succ fuel ih =>
    intro F k d a hk hlt
    match hd : a[d]? with
    | some true =>
      have hread : read_and_invalidate ⟨F, some a, k, d⟩ =
          (some (some (k, d)), ⟨F, some a, k, d + 1⟩) := by
        simp [read_and_invalidate, hd]
      have hnext : dnext ⟨F, some a, k, d⟩ =
          (some (k, d), ⟨F, some a, k, d + 1⟩) := by
        simp [dnext, hread]
      have hcons : restYields F k d a = (k, d) :: restYields F k (d + 1) a :=
        restYields_cons hd
      have hlen : (restYields F k (d + 1) a).length < fuel := by
        have h1 := congrArg List.length hcons
        simp at h1
        omega
      rw [hcons]
      simp only [drun]
      rw [hnext]
      exact congrArg _ (ih F k (d + 1) a hk hlen)
    | some false =>
      have hread : read_and_invalidate ⟨F, some a, k, d⟩ =
          (none, ⟨F, none, k, d + 1⟩) := by
        simp [read_and_invalidate, hd]
      exact drun_exhaust_step fuel ih F k d (d + 1) a (takeWhile_drop_false hd)
        hread hlt
    | none =>
      have hread : read_and_invalidate ⟨F, some a, k, d⟩ =
          (none, ⟨F, none, k, d⟩) := by
        simp [read_and_invalidate, hd]
      exact drun_exhaust_step fuel ih F k d d a (takeWhile_drop_none hd)
        hread hlt

/-! ## Claim theorems -/

/-- C1: with cursor tracking enabled and a nonzero mouse-update timestamp,
the cursor-state update of a frame pull is rejected (position, visibility,
owner and timestamp all unchanged) exactly under the spec's two rejection
conditions, and otherwise accepted with position
`(reported + output corner − offset)`, owner = this output, timestamp =
the report's, visibility from the report. -/
theorem C1_cursor_update_policy (cap : Capturer) (info : AcquiredInfo)
    (hm : cap.capture_mouse = true) (ht : info.LastMouseUpdateTime ≠ 0) :
    (load_frame cap info).cursor_info.position =
      (if update_rejected cap info then cap.cursor_info.position
       else (info.PointerX + cap.desc_left - cap.offset_x,
             info.PointerY + cap.desc_top - cap.offset_y)) ∧
    (load_frame cap info).cursor_info.visible =
      (if update_rejected cap info then cap.cursor_info.visible
       else info.PointerVisible != 0) ∧
    (load_frame cap info).cursor_info.who_updated_position_last =
      (if update_rejected cap info then cap.cursor_info.who_updated_position_last
       else cap.output_number) ∧
    (load_frame cap info).cursor_info.last_time_stamp =
      (if update_rejected cap info then cap.cursor_info.last_time_stamp
       else info.LastMouseUpdateTime) := by
  have hgate : cap.capture_mouse = true ∧ info.LastMouseUpdateTime ≠ 0 := ⟨hm, ht⟩
  simp only [load_frame, if_pos hgate]
  by_cases h1 : info.PointerVisible = 0 ∧
      cap.cursor_info.who_updated_position_last ≠ cap.output_number
  · have hrej : update_rejected cap info := Or.inl h1
    simp [update_cursor_position, h1, hrej]
  · by_cases h2 : info.PointerVisible ≠ 0 ∧ cap.cursor_info.visible = true ∧
        cap.cursor_info.who_updated_position_last ≠ cap.output_number ∧
        cap.cursor_info.last_time_stamp > info.LastMouseUpdateTime
    · have hrej : update_rejected cap info := Or.inr h2
      simp [update_cursor_position, h1, h2, hrej]
    · have hrej : ¬ update_rejected cap info := by
        intro h
        rcases h with h | h
        · exact h1 h
        · exact h2 h
      simp [update_cursor_position, h1, h2, hrej]

/-- C1 witness: the spec's stale-update scenario — cached
`{visible, owner 5, timestamp 100}` and a report `{visible, timestamp 50}`
arriving at output 0 is rejected, leaving all four fields unchanged. -/
theorem C1_cursor_update_policy_witness :
    (load_frame capC1 infoC1).cursor_info.position =
      (if update_rejected capC1 infoC1 then capC1.cursor_info.position
       else (infoC1.PointerX + capC1.desc_left - capC1.offset_x,
             infoC1.PointerY + capC1.desc_top - capC1.offset_y)) ∧
    (load_frame capC1 infoC1).cursor_info.visible =
      (if update_rejected capC1 infoC1 then capC1.cursor_info.visible
       else infoC1.PointerVisible != 0) ∧
    (load_frame capC1 infoC1).cursor_info.who_updated_position_last =
      (if update_rejected capC1 infoC1 then capC1.cursor_info.who_updated_position_last
       else capC1.output_number) ∧
    (load_frame capC1 infoC1).cursor_info.last_time_stamp =
      (if update_rejected capC1 infoC1 then capC1.cursor_info.last_time_stamp
       else infoC1.LastMouseUpdateTime) :=
  C1_cursor_update_policy capC1 infoC1 (by decide) (by decide)

/-- C2: the exposed buffer's length is `height × pitch` (true in the code),
but the compositor addresses the frame with the pixel width, not the pitch:
on a 2×2 output with pitch 16, compositing a 1×1 color cursor at
`(frame_x, frame_y) = (0, 1)` writes the pixel at byte offset
`(1·width + 0)·4 = 8`, while the spec's offset
`frame_y·pitch + frame_x·4 = 16` is untouched. -/
theorem C2_row_addressing_uses_width :
    (load_frame capC2 ⟨1, 1, 0, 0, 0, [], ⟨0, 0, 0, 0, 0, 0⟩, 16⟩).len = 2 * 16 ∧
    spec_frame_offset 16 1 0 = 16 ∧
    (draw_cursor capC2 frameC2).getD 8 0 = 10 ∧
    (draw_cursor capC2 frameC2).getD (spec_frame_offset 16 1 0) 0 = 0 ∧
    frameC2.getD 8 0 = 0 := by decide

set_option maxRecDepth 100000 in
/-- C3: monochrome compositing does not read the masks at the spec's
`byte = y·pitch + x/8` into each half-height bitmap.  For the cursor-local
pixel `(x, y) = (2, 0)` of an 8-wide, pitch-1 monochrome cursor, the spec's
AND bit (byte 0, bit 5) is 1, so the destination must stay unchanged
(mid-gray 128) — but the code computes `byte_index = (y·pitch + 4·x)/8 = 1`
and reads the XOR half at `byte_index + Height/2` bytes, finds AND = 0,
XOR = 1, and inverts the pixel to 127. -/
theorem C3_monochrome_addressing :
    spec_mono_and_bit ciC3.shape 1 2 0 = 1 ∧
    frameC3.getD 8 0 = 128 ∧
    (draw_cursor capC3 frameC3).getD 8 0 = 127 := by decide

/-- C9: the shape buffer is resized only by a nonzero reported size
strictly larger than the current buffer (its new length is
`max current size`, so it never shrinks, and a zero size changes nothing);
a nonzero size replaces the shape bytes and metadata unconditionally; and
across any sequence of frame reports the buffer's length never decreases. -/
theorem C9_shape_buffer_growth (shape : List Nat) (si : ShapeInfo) (size : Nat)
    (fetched : List Nat) (finfo : ShapeInfo)
    (evs : List (Nat × List Nat × ShapeInfo)) :
    ((shape_update shape si size fetched finfo).1.length =
      if size = 0 then shape.length else max shape.length size) ∧
    (size = 0 → shape_update shape si size fetched finfo = (shape, si)) ∧
    (size ≠ 0 → (shape_update shape si size fetched finfo).2 = finfo ∧
      ∀ i, i < size →
        (shape_update shape si size fetched finfo).1.getD i 0 = fetched.getD i 0) ∧
    shape.length ≤ (run_shape_updates (shape, si) evs).1.length := by
  refine ⟨shape_update_length shape si size fetched finfo, ?_, ?_, ?_⟩
  · intro h
    simp [shape_update, h]
  · intro h
    constructor
    · simp [shape_update, h]
    · intro i hi
      have hlen : i < (shape_update shape si size fetched finfo).1.length := by
        rw [shape_update_length]
        simp only [h, if_neg, ite_false]
        omega
      simp only [shape_update, h, ne_eq, not_false_eq_true, if_pos,
        ite_true] at hlen ⊢
      rw [overlay_getD _ _ _ _ (by simpa [overlay_length] using hlen)]
      simp [hi]
  · exact run_shape_updates_mono evs (shape, si)

/-- C9 witness: a buffer of length 2 hit by a report of size 3 grows to
length 3, takes the fetched bytes and metadata, and a later report of
size 0 or of a smaller size never shrinks it. -/
theorem C9_shape_buffer_growth_witness :
    (shape_update [1, 2] siC2 3 [7, 8, 9] siC3).1.getD 1 0 = 8 ∧
    (shape_update [1, 2] siC2 3 [7, 8, 9] siC3).2 = siC3 ∧
    (shape_update [1, 2] siC2 0 [7, 8, 9] siC3) = ([1, 2], siC2) ∧
    (2 : Nat) ≤ (run_shape_updates ([1, 2], siC2) [(3, [7, 8, 9], siC3), (0, [], siC2)]).1.length := by
  refine ⟨?_, ?_, ?_, ?_⟩
  · exact ((C9_shape_buffer_growth [1, 2] siC2 3 [7, 8, 9] siC3 []).2.2.1
      (by decide)).2 1 (by decide)
  · exact ((C9_shape_buffer_growth [1, 2] siC2 3 [7, 8, 9] siC3 []).2.2.1
      (by decide)).1
  · exact (C9_shape_buffer_growth [1, 2] siC2 0 [7, 8, 9] siC3 []).2.1 rfl
  · exact (C9_shape_buffer_growth [1, 2] siC2 3 [7, 8, 9] siC3
      [(3, [7, 8, 9], siC3), (0, [], siC2)]).2.2.2

/-- C4: color-cursor compositing of one in-bounds pixel: a zero source
alpha leaves the destination pixel entirely unchanged; a nonzero alpha
blends each of the first three channels as
`(alpha·src + (255−alpha)·dst) / 255` (truncating division), sets the
destination alpha byte to 255, and touches no other byte. -/
theorem C4_color_blend (shape frame : List Nat) (fi ci : Nat)
    (hf : fi + 3 < frame.length) (hc : ci + 3 < shape.length)
    (hs : ∀ b ∈ shape, b < 256) (hfr : ∀ b ∈ frame, b < 256) :
    (shape.getD (ci + 3) 0 = 0 → draw_color_cursor shape frame fi ci = frame) ∧
    (shape.getD (ci + 3) 0 ≠ 0 →
      (draw_color_cursor shape frame fi ci).length = frame.length ∧
      (∀ i, i < 3 →
        (draw_color_cursor shape frame fi ci).getD (fi + i) 0 =
          (shape.getD (ci + 3) 0 * shape.getD (ci + i) 0 +
            (255 - shape.getD (ci + 3) 0) * frame.getD (fi + i) 0) / 255) ∧
      (draw_color_cursor shape frame fi ci).getD (fi + 3) 0 = 255 ∧
      (∀ j, j < fi ∨ fi + 3 < j →
        (draw_color_cursor shape frame fi ci).getD j 0 = frame.getD j 0)) := by
  constructor
  · intro h0
    simp only [draw_color_cursor, if_pos hc]
    rw [if_neg (by omega : ¬ shape.getD (ci + 3) 0 > 0)]
  · intro hne
    have ha : shape.getD (ci + 3) 0 > 0 := Nat.pos_of_ne_zero hne
    have hblend : ∀ i : Nat,
        (shape.getD (ci + 3) 0 * shape.getD (ci + i) 0 +
          (255 - shape.getD (ci + 3) 0) * frame.getD (fi + i) 0) / 255 % 256 =
        (shape.getD (ci + 3) 0 * shape.getD (ci + i) 0 +
          (255 - shape.getD (ci + 3) 0) * frame.getD (fi + i) 0) / 255 := by
      intro i
      exact Nat.mod_eq_of_lt (Nat.lt_of_le_of_lt
        (blend_le_255 (getD_lt_of_forall_lt shape (ci + 3) hs)
          (getD_lt_of_forall_lt shape (ci + i) hs)
          (getD_lt_of_forall_lt frame (fi + i) hfr)) (by omega))
    have hform : draw_color_cursor shape frame fi ci =
        (((frame.set (fi + 0)
            ((shape.getD (ci + 3) 0 * shape.getD (ci + 0) 0 +
              (255 - shape.getD (ci + 3) 0) * frame.getD (fi + 0) 0) / 255 % 256)).set (fi + 1)
            ((shape.getD (ci + 3) 0 * shape.getD (ci + 1) 0 +
              (255 - shape.getD (ci + 3) 0) * frame.getD (fi + 1) 0) / 255 % 256)).set (fi + 2)
            ((shape.getD (ci + 3) 0 * shape.getD (ci + 2) 0 +
              (255 - shape.getD (ci + 3) 0) * frame.getD (fi + 2) 0) / 255 % 256)).set (fi + 3)
            255 := by
      have hr3 : List.range 3 = [0, 1, 2] := rfl
      simp only [draw_color_cursor, if_pos hc, if_pos ha, hr3,
        List.foldl_cons, List.foldl_nil]
      rw [if_pos (show fi + 0 < frame.length ∧ ci + 0 < shape.length by omega)]
      simp only [List.length_set]
      rw [if_pos (show fi + 1 < frame.length ∧ ci + 1 < shape.length by omega)]
      rw [getD_set_other (show fi + 0 ≠ fi + 1 by omega)]
      simp only [List.length_set]
      rw [if_pos (show fi + 2 < frame.length ∧ ci + 2 < shape.length by omega)]
      rw [getD_set_other (show fi + 1 ≠ fi + 2 by omega),
        getD_set_other (show fi + 0 ≠ fi + 2 by omega)]
      simp only [List.length_set]
      rw [if_pos (show fi + 3 < frame.length by omega)]
    rw [hform]
    refine ⟨by simp [List.length_set], ?_, ?_, ?_⟩
    · intro i hi
      interval_cases i
      · rw [getD_set_other (show fi + 3 ≠ fi + 0 by omega),
          getD_set_other (show fi + 2 ≠ fi + 0 by omega),
          getD_set_other (show fi + 1 ≠ fi + 0 by omega),
          getD_set_at (by simp [List.length_set]; omega)]
        exact hblend 0
      · rw [getD_set_other (show fi + 3 ≠ fi + 1 by omega),
          getD_set_other (show fi + 2 ≠ fi + 1 by omega),
          getD_set_at (by simp [List.length_set]; omega)]
        exact hblend 1
      · rw [getD_set_other (show fi + 3 ≠ fi + 2 by omega),
          getD_set_at (by simp [List.length_set]; omega)]
        exact hblend 2
    · rw [getD_set_at (by simp [List.length_set]; omega)]
    · intro j hj
      rw [getD_set_other (show fi + 3 ≠ j by omega),
        getD_set_other (show fi + 2 ≠ j by omega),
        getD_set_other (show fi + 1 ≠ j by omega),
        getD_set_other (show fi + 0 ≠ j by omega)]

/-- C4 witness: the spec's blend test — alpha 128 over black destination
with white source yields 128 in each of the three channels, and the
destination alpha byte becomes 255. -/
theorem C4_color_blend_witness :
    (draw_color_cursor shapeC4 frameC4 0 0).getD 0 0 = 128 ∧
    (draw_color_cursor shapeC4 frameC4 0 0).getD 3 0 = 255 := by
  have h := C4_color_blend shapeC4 frameC4 0 0 (by decide) (by decide)
    (by decide) (by decide)
  refine ⟨?_, ?_⟩
  · have h1 := (h.2 (by decide)).2.1 0 (by decide)
    simpa using h1
  · have h2 := (h.2 (by decide)).2.2.1
    simpa using h2

/-- C5: masked-color compositing of one in-bounds pixel: a zero source
alpha leaves the destination unchanged; otherwise each of the first three
destination bytes is overwritten with the source byte exactly when that
source byte is nonzero, the destination alpha byte becomes 255, and no
other byte changes; and a cursor whose encoding type is none of
color/monochrome/masked-color modifies no destination byte at all. -/
theorem C5_masked_color (shape frame : List Nat) (fi ci : Nat)
    (hf : fi + 3 < frame.length) (hc : ci + 3 < shape.length) :
    (shape.getD (ci + 3) 0 = 0 →
      draw_masked_color_cursor shape frame fi ci = frame) ∧
    (shape.getD (ci + 3) 0 ≠ 0 →
      (draw_masked_color_cursor shape frame fi ci).length = frame.length ∧
      (∀ i, i < 3 →
        (draw_masked_color_cursor shape frame fi ci).getD (fi + i) 0 =
          if shape.getD (ci + i) 0 > 0 then shape.getD (ci + i) 0
          else frame.getD (fi + i) 0) ∧
      (draw_masked_color_cursor shape frame fi ci).getD (fi + 3) 0 = 255 ∧
      (∀ j, j < fi ∨ fi + 3 < j →
        (draw_masked_color_cursor shape frame fi ci).getD j 0 = frame.getD j 0)) ∧
    (∀ (cap : Capturer) (fr : List Nat),
      cap.cursor_info.shape_info.Ty ≠ SHAPE_TYPE_COLOR →
      cap.cursor_info.shape_info.Ty ≠ SHAPE_TYPE_MONOCHROME →
      cap.cursor_info.shape_info.Ty ≠ SHAPE_TYPE_MASKED_COLOR →
      draw_cursor cap fr = fr) := by
  refine ⟨?_, ?_, ?_⟩
  · intro h0
    simp only [draw_masked_color_cursor, if_pos hc]
    rw [if_neg (by omega : ¬ shape.getD (ci + 3) 0 > 0)]
  · intro hne
    have ha : shape.getD (ci + 3) 0 > 0 := Nat.pos_of_ne_zero hne
    have hform : draw_masked_color_cursor shape frame fi ci =
        (if shape.getD (ci + 2) 0 > 0 then
          (if shape.getD (ci + 1) 0 > 0 then
            (if shape.getD (ci + 0) 0 > 0 then
              frame.set (fi + 0) (shape.getD (ci + 0) 0)
            else frame).set (fi + 1) (shape.getD (ci + 1) 0)
          else
            (if shape.getD (ci + 0) 0 > 0 then
              frame.set (fi + 0) (shape.getD (ci + 0) 0)
            else frame)).set (fi + 2) (shape.getD (ci + 2) 0)
        else
          (if shape.getD (ci + 1) 0 > 0 then
            (if shape.getD (ci + 0) 0 > 0 then
              frame.set (fi + 0) (shape.getD (ci + 0) 0)
            else frame).set (fi + 1) (shape.getD (ci + 1) 0)
          else
            (if shape.getD (ci + 0) 0 > 0 then
              frame.set (fi + 0) (shape.getD (ci + 0) 0)
            else frame))).set (fi + 3) 255 := by
      have hr3 : List.range 3 = [0, 1, 2] := rfl
      simp only [draw_masked_color_cursor, if_pos hc, if_pos ha, hr3,
        List.foldl_cons, List.foldl_nil]
      rw [if_pos (show fi + 0 < frame.length ∧ ci + 0 < shape.length by omega)]
      simp only [length_ite_set]
      rw [if_pos (show fi + 1 < frame.length ∧ ci + 1 < shape.length by omega)]
      simp only [length_ite_set, List.length_set]
      rw [if_pos (show fi + 2 < frame.length ∧ ci + 2 < shape.length by omega)]
      simp only [length_ite_set, List.length_set]
      rw [if_pos (show fi + 3 < frame.length by omega)]
    rw [hform]
    have hlen0 : (if shape.getD (ci + 0) 0 > 0 then
        frame.set (fi + 0) (shape.getD (ci + 0) 0) else frame).length =
        frame.length := length_ite_set _ _ _ _
    refine ⟨by simp [List.length_set, length_ite_set], ?_, ?_, ?_⟩
    · intro i hi
      interval_cases i
      · rw [getD_set_other (show fi + 3 ≠ fi + 0 by omega),
          getD_ite_set_other _ (show fi + 2 ≠ fi + 0 by omega)]
        split
        · rw [getD_set_other (show fi + 1 ≠ fi + 0 by omega),
            getD_ite_set_at _ (by omega)]
        · rw [getD_ite_set_at _ (by omega)]
      · rw [getD_set_other (show fi + 3 ≠ fi + 1 by omega),
          getD_ite_set_other _ (show fi + 2 ≠ fi + 1 by omega)]
        split
        · rw [getD_set_at (by rw [hlen0]; omega)]
        · rw [getD_ite_set_other _ (show fi + 0 ≠ fi + 1 by omega)]
      · rw [getD_set_other (show fi + 3 ≠ fi + 2 by omega),
          getD_ite_set_at _ (by simp [List.length_set, length_ite_set]; omega)]
        split
        · rfl
        · split
          · rw [getD_set_other (show fi + 1 ≠ fi + 2 by omega),
              getD_ite_set_other _ (show fi + 0 ≠ fi + 2 by omega)]
          · rw [getD_ite_set_other _ (show fi + 0 ≠ fi + 2 by omega)]
    · rw [getD_set_at (by simp [List.length_set, length_ite_set]; omega)]
    · intro j hj
      rw [getD_set_other (show fi + 3 ≠ j by omega),
        getD_ite_set_other _ (show fi + 2 ≠ j by omega)]
      split
      · rw [getD_set_other (show fi + 1 ≠ j by omega),
          getD_ite_set_other _ (show fi + 0 ≠ j by omega)]
      · rw [getD_ite_set_other _ (show fi + 0 ≠ j by omega)]
  · intro cap fr h1 h2 h3
    simp only [draw_cursor]
    apply foldl_fixed
    intro b yn
    apply foldl_fixed
    intro b2 xn
    dsimp only
    rw [if_neg h1, if_neg h2, if_neg h3]
    split_ifs <;> rfl

/-- C5 witness: alpha 200, source channels (0, 7, 9) over destination
bytes 5 — channel 0 keeps the destination (source 0 is see-through),
channels 1 and 2 are overwritten, the alpha byte becomes 255; and a 1×1
cursor of the unknown encoding type 3 leaves the frame untouched. -/
theorem C5_masked_color_witness :
    (draw_masked_color_cursor shapeC5 frameC5 0 0).getD 0 0 = 5 ∧
    (draw_masked_color_cursor shapeC5 frameC5 0 0).getD 1 0 = 7 ∧
    (draw_masked_color_cursor shapeC5 frameC5 0 0).getD 3 0 = 255 ∧
    draw_cursor capC5u frameC5 = frameC5 := by
  have h := C5_masked_color shapeC5 frameC5 0 0 (by decide) (by decide)
  refine ⟨?_, ?_, ?_, ?_⟩
  · have h1 := (h.2.1 (by decide)).2.1 0 (by decide)
    simpa using h1
  · have h1 := (h.2.1 (by decide)).2.1 1 (by decide)
    simpa using h1
  · have h1 := (h.2.1 (by decide)).2.2.1
    simpa using h1
  · exact h.2.2 capC5u frameC5 (by decide) (by decide) (by decide)

/-- C7: a frame pull first releases the previously exposed resources —
the fastlane path unmaps the desktop surface, the readback path unmaps and
releases the mapped surface exactly when one exists — then releases the
previous native frame handle (on every path, as the last call before
acquisition), so that when `AcquireNextFrame` runs the frame handle is
released, the readback path holds no mapped surface, and the fastlane path
holds no mapped desktop surface. -/
theorem C7_release_before_acquire (fastlane : Bool) (st : NativeState) :
    frame_trace fastlane st =
      (if fastlane then [NativeEv.unMapDesktopSurface]
       else if st.surface_mapped then [NativeEv.surfaceUnmap, NativeEv.surfaceRelease]
       else []) ++ [NativeEv.releaseFrame, NativeEv.acquireNextFrame] ∧
    (frame_release_events fastlane st).getLast? = some NativeEv.releaseFrame ∧
    ((frame_release_events fastlane st).foldl native_step st).frame_held = false ∧
    ((frame_release_events fastlane st).foldl native_step st).surface_mapped =
      (if fastlane then st.surface_mapped else false) ∧
    ((frame_release_events fastlane st).foldl native_step st).desktop_mapped =
      (if fastlane then false else st.desktop_mapped) := by
  rcases st with ⟨d, s, f⟩
  cases fastlane <;> cases d <;> cases s <;> cases f <;> decide

/-- C8: if construction fails — at device creation or at
duplication-session creation — every native handle created before the
failure is released before the error is returned (device creation failing
creates nothing; duplication failing releases the device and the context),
so the failure trace leaks neither handle. -/
theorem C8_construction_no_leak (device_ok dup_ok : Bool)
    (hfail : (capturer_new_trace device_ok dup_ok).1 = false) :
    ¬ device_leaked (capturer_new_trace device_ok dup_ok).2 ∧
    ¬ context_leaked (capturer_new_trace device_ok dup_ok).2 := by
  cases device_ok <;> cases dup_ok <;> revert hfail <;> decide

/-- C8 witness: the duplication-session failure path (device created,
duplication refused) releases both the device and the context. -/
theorem C8_construction_no_leak_witness :
    ¬ device_leaked (capturer_new_trace true false).2 ∧
    ¬ context_leaked (capturer_new_trace true false).2 :=
  C8_construction_no_leak true false (by decide)

/-- C10: for every cursor state (arbitrary shape bytes, dimensions, pitch,
hotspot, position, encoding type) and every frame buffer, the compositor
run with every single buffer read and write bounds-checked never fails and
agrees with the plain embedding: every access `draw_cursor` and its three
per-encoding helpers perform is within bounds. -/
theorem C10_compositor_memory_safe (cap : Capturer) (frame : List Nat) :
    draw_cursorC cap frame = some (draw_cursor cap frame) := by
  unfold draw_cursorC draw_cursor
  apply foldlM_eq_some_foldl
  intro b yn
  apply foldlM_eq_some_foldl
  intro b2 xn
  dsimp only
  split_ifs <;>
    first
      | rfl
      | apply draw_color_cursorC_eq
      | apply draw_monochrome_cursorC_eq
      | apply draw_masked_color_cursorC_eq

/-- C6 (amended): with enough fuel, the enumerator yields exactly
`enumSpec`: the passing prefix of adapter 0 as `(0,0), (0,1), …`, then each
subsequent adapter's passing prefix in increasing adapter order, stopping
(within each adapter) at the first output that fails the capability query
— which exhausts the whole adapter — and stopping the entire enumeration
at the first advanced-to adapter that is missing, empty, or fails on its
first output. -/
theorem C6_enumeration_characterization (F : List AdapterM) (fuel : Nat)
    (hfuel : (enumSpec F).length < fuel) :
    drun fuel (initDisplays F) = enumSpec F := by
  match F with
  | [] =>
    match fuel with
    | fuel + 1 =>
      have hread : read_and_invalidate ⟨[], none, 0, 0⟩ =
          (some none, ⟨[], none, 0, 0⟩) := by
        simp [read_and_invalidate]
      have hnext : dnext ⟨[], none, 0, 0⟩ = (none, ⟨[], none, 0, 0⟩) := by
        simp [dnext, hread]
      have hinit : initDisplays ([] : List AdapterM) = ⟨[], none, 0, 0⟩ := rfl
      rw [hinit]
      simp [drun, hnext, enumSpec]
  | a :: rest =>
    have hk : (a :: rest)[0]? = some a := by simp
    have hinit : initDisplays (a :: rest) = ⟨a :: rest, some a, 0, 0⟩ := by
      simp [initDisplays]
    have hspec : enumSpec (a :: rest) = restYields (a :: rest) 0 0 a := by
      rw [enumSpec, restYields, contribution_drop_zero]
      rfl
    rw [hinit, hspec]
    exact drun_restYields fuel (a :: rest) 0 0 a hk (by rw [← hspec]; exact hfuel)

/-- C6 witness: two adapters with one capability-passing output each are
enumerated as `(0,0), (1,0)` with fuel 4. -/
theorem C6_enumeration_characterization_witness :
    drun 4 (initDisplays [[true], [true]]) = enumSpec [[true], [true]] :=
  C6_enumeration_characterization [[true], [true]] 4 (by decide)

/-- C6 counterexample to the claim as stated: with one adapter whose first
output fails the capability query and whose second passes, the enumeration
is empty while "the sum over all adapters of the outputs that pass the
capability check" is 1; and with adapters `[pass], [], [pass]` the
enumeration stops after `(0,0)` even though advancing further would find
another adapter, so termination is not "exactly when adapter advancement
yields no adapter at all". -/
theorem C6_length_counterexample :
    ((drun 10 (initDisplays [[false, true]])).length ≠
      ([[false, true]].map (fun a => (a.filter (fun b => b)).length)).sum) ∧
    drun 10 (initDisplays [[true], [], [true]]) = [(0, 0)] ∧
    ([[true], [], [true]].map
      (fun a => (a.filter (fun b => b)).length)).sum = 2 := by decide

end Scrap
